import Mathlib

/-!
Shallow embedding of the order pipeline of the Shopify-style multi-tenant
e-commerce backend (app/api/routes/orders.py, app/tasks/order_tasks.py,
app/models.py, app/schemas.py).

Money amounts (SQL Float columns) are modelled as exact rationals; the
float literal 0.1 of the tax computation is modelled as 1/10.  Database
tables are modelled as lists of rows; SQLAlchemy `query(...).first()` is
`List.find?` and in-place mutation of a fetched row is an update of the
first matching list entry.
-/

namespace Shopify

/-- Order status enumeration (app/models.py, class OrderStatus). -/
inductive OrderStatus where
  | pending
  | confirmed
  | processing
  | shipped
  | delivered
  | cancelled
  | refunded
deriving DecidableEq, Repr

/-- The user fields read by the order routes (app/models.py, class User):
`role.value` is modelled as the plain string it wraps. -/
structure User where
  id : Nat
  tenant_id : Option Nat
  role : String
deriving DecidableEq, Repr

/-- The product fields read and written by the order routes
(app/models.py, class Product). -/
structure Product where
  id : Nat
  name : String
  base_price : ℚ
  discount_price : Option ℚ
  stock_quantity : Int
  sales_count : Int
  track_inventory : Bool
deriving DecidableEq, Repr

/-- One requested line item (app/schemas.py, class OrderItemCreate);
the schema constrains quantity to be at least 1, hence a natural number. -/
structure OrderItemCreate where
  product_id : Nat
  quantity : Nat
deriving DecidableEq, Repr

/-- A checkout request (app/schemas.py, class OrderCreate), restricted to
the fields the computation depends on. -/
structure OrderCreate where
  items : List OrderItemCreate
  discount_code : Option String
deriving DecidableEq, Repr

/-- Persisted order row (app/models.py, class Order), restricted to the
fields the order routes read or write; `created_at` is a timestamp in
seconds. -/
structure Order where
  id : Nat
  tenant_id : Nat
  customer_id : Nat
  subtotal : ℚ
  discount_amount : ℚ
  shipping_cost : ℚ
  tax_amount : ℚ
  total : ℚ
  status : OrderStatus
  payment_status : String
  created_at : Int
deriving DecidableEq, Repr

/-- Persisted order line item (app/models.py, class OrderItem). -/
structure OrderItem where
  order_id : Nat
  product_id : Nat
  product_name : String
  quantity : Nat
  unit_price : ℚ
  total_price : ℚ
deriving DecidableEq, Repr

/-- Persisted cart item row (app/models.py, class CartItem), restricted to
the fields order creation touches. -/
structure CartItem where
  customer_id : Nat
  product_id : Nat
  quantity : Nat
deriving DecidableEq, Repr

/-- The database state the order routes operate on: one list of rows per
table. -/
structure DB where
  products : List Product
  orders : List Order
  order_items : List OrderItem
  cart_items : List CartItem
deriving DecidableEq, Repr

/-- Mutating the row returned by `query(...).first()` updates the first
matching row of the table. -/
def updateWhere {α : Type} (p : α → Bool) (f : α → α) : List α → List α
  | [] => []
  | x :: xs => if p x then f x :: xs else x :: updateWhere p f xs

/-- orders.py line 49: `unit_price = product.discount_price or product.base_price`.
Python `or` falls through on falsy values: both `None` and `0.0` yield the
base price; any other set discount price is used as is (no comparison with
the base price happens here). -/
def unitPrice (p : Product) : ℚ :=
  match p.discount_price with
  | some d => if d = 0 then p.base_price else d
  | none => p.base_price

/-- Errors create_order can raise before touching any table
(orders.py lines 23-47). -/
inductive CreateError where
  | noTenant
  | productNotFound (product_id : Nat)
  | insufficientStock (product_name : String)
deriving DecidableEq, Repr

/-- One entry of the `order_items` dict list built by the pricing loop
(orders.py lines 53-61). -/
structure PricedItem where
  product_id : Nat
  product_name : String
  quantity : Nat
  unit_price : ℚ
  total_price : ℚ
deriving DecidableEq, Repr

/-- The pricing/stock-check loop of create_order (orders.py lines 33-61):
for each requested item, fetch the product (404 when absent), fail when
inventory is tracked and stock is below the requested quantity, otherwise
record the priced line.  No table is written in this phase. -/
def priceItems (products : List Product) : List OrderItemCreate →
    Except CreateError (List PricedItem)
  | [] => .ok []
  | item :: rest =>
    match products.find? (fun p => p.id == item.product_id) with
    | none => .error (.productNotFound item.product_id)
    | some product =>
      if product.track_inventory && product.stock_quantity < (item.quantity : Int) then
        .error (.insufficientStock product.name)
      else
        (priceItems products rest).map (fun tail =>
          { product_id := product.id
            product_name := product.name
            quantity := item.quantity
            unit_price := unitPrice product
            total_price := unitPrice product * (item.quantity : ℚ) } :: tail)

/-- `subtotal` accumulated by the pricing loop (orders.py lines 30, 51). -/
def subtotalOf (items : List PricedItem) : ℚ :=
  (items.map (fun it => it.total_price)).sum

/-- Inventory adjustment of the persistence loop (orders.py lines 107-111):
the product is re-fetched by id; the stock decrement is guarded by
`track_inventory`, while the sales_count increment on line 111 sits outside
that guard and runs unconditionally. -/
def applyOrderMutation (products : List Product) (it : PricedItem) : List Product :=
  updateWhere (fun p => p.id == it.product_id)
    (fun p =>
      let p1 := if p.track_inventory then
        { p with stock_quantity := p.stock_quantity - (it.quantity : Int) } else p
      { p1 with sales_count := p1.sales_count + (it.quantity : Int) })
    products

/-- Result of a successful create_order call: the committed database, the
order returned to the caller, its line items, and whether the best-effort
`process_new_order.delay` enqueue went through (orders.py lines 119-125
catch any enqueue exception and only log it). -/
structure CreateResult where
  db : DB
  order : Order
  items : List OrderItem
  task_enqueued : Bool
deriving DecidableEq, Repr

/-- create_order (orders.py lines 16-127).  `now` stands for the creation
timestamp, `new_order_id` for the id the flush assigns, `enqueue_ok` for
whether the celery broker accepts the post-commit task.  Discount codes are
a no-op (lines 64-67), shipping is 0 (line 70), tax is subtotal * 0.1
(line 71). -/
def create_order (db : DB) (current_user : User) (order_data : OrderCreate)
    (now : Int) (new_order_id : Nat) (enqueue_ok : Bool) :
    Except CreateError CreateResult :=
  match current_user.tenant_id with
  | none => .error .noTenant
  | some tid =>
    match priceItems db.products order_data.items with
    | .error e => .error e
    | .ok priced =>
      let subtotal := subtotalOf priced
      let discount_amount : ℚ := 0
      let shipping_cost : ℚ := 0
      let tax_amount : ℚ := subtotal * (1 / 10)
      let total : ℚ := subtotal - discount_amount + shipping_cost + tax_amount
      let new_order : Order :=
        { id := new_order_id
          tenant_id := tid
          customer_id := current_user.id
          subtotal := subtotal
          discount_amount := discount_amount
          shipping_cost := shipping_cost
          tax_amount := tax_amount
          total := total
          status := OrderStatus.pending
          payment_status := "pending"
          created_at := now }
      let new_items : List OrderItem := priced.map (fun it =>
        { order_id := new_order_id
          product_id := it.product_id
          product_name := it.product_name
          quantity := it.quantity
          unit_price := it.unit_price
          total_price := it.total_price })
      let products1 := priced.foldl applyOrderMutation db.products
      let cart1 := db.cart_items.filter (fun c => !(c.customer_id == current_user.id))
      .ok { db := { products := products1
                    orders := db.orders ++ [new_order]
                    order_items := db.order_items ++ new_items
                    cart_items := cart1 }
            order := new_order
            items := new_items
            task_enqueued := enqueue_ok }

/-- End-to-end effect of a POST /orders request on the database: an
HTTPException raised before the commit on line 116 leaves every table as it
was (the request-scoped session is discarded without committing), so the
error branch carries the unchanged input database. -/
def runCreateOrder (db : DB) (current_user : User) (order_data : OrderCreate)
    (now : Int) (new_order_id : Nat) (enqueue_ok : Bool) :
    DB × Except CreateError Order :=
  match create_order db current_user order_data now new_order_id enqueue_ok with
  | .ok r => (r.db, .ok r.order)
  | .error e => (db, .error e)

/-- Errors cancel_order can raise (orders.py lines 196-207). -/
inductive CancelError where
  | orderNotFound
  | notPending (st : OrderStatus)
deriving DecidableEq, Repr

/-- Inventory restoration for one line item of a cancelled order
(orders.py lines 213-217): the product is fetched by id; stock is
incremented and sales_count decremented only when the product exists and
`track_inventory` is set — otherwise nothing changes. -/
def restoreItem (products : List Product) (it : OrderItem) : List Product :=
  updateWhere (fun p => p.id == it.product_id)
    (fun p =>
      if p.track_inventory then
        { p with stock_quantity := p.stock_quantity + (it.quantity : Int),
                 sales_count := p.sales_count - (it.quantity : Int) }
      else p)
    products

/-- PATCH /orders/\x7border_id\x7d/cancel (orders.py lines 181-232): the
order is looked up by id and customer; only a pending order may be
cancelled; its status becomes cancelled and each line item's inventory is
restored via `restoreItem`. -/
def cancel_order (db : DB) (current_user : User) (order_id : Nat) :
    Except CancelError DB :=
  match db.orders.find? (fun o => o.id == order_id && o.customer_id == current_user.id) with
  | none => .error .orderNotFound
  | some order =>
    if order.status == OrderStatus.pending then
      let orders1 := updateWhere
        (fun o => o.id == order_id && o.customer_id == current_user.id)
        (fun o => { o with status := OrderStatus.cancelled }) db.orders
      let items := db.order_items.filter (fun it => it.order_id == order.id)
      .ok { db with orders := orders1
                    products := items.foldl restoreItem db.products }
    else
      .error (.notPending order.status)

/-- Errors update_order_status can raise (orders.py lines 245-264). -/
inductive StatusUpdateError where
  | notOwner
  | orderNotFound
  | wrongTenant
deriving DecidableEq, Repr

/-- PATCH /orders/\x7border_id\x7d/status (orders.py lines 236-290): after
the role and tenant checks the requested status is assigned with no
validation of the transition; reaching confirmed also sets the payment
status to paid (lines 266-271). -/
def update_order_status (db : DB) (current_user : User) (order_id : Nat)
    (new_status : OrderStatus) : Except StatusUpdateError DB :=
  if current_user.role ≠ "tenant_owner" then .error .notOwner
  else
    match db.orders.find? (fun o => o.id == order_id) with
    | none => .error .orderNotFound
    | some order =>
      if some order.tenant_id ≠ current_user.tenant_id then .error .wrongTenant
      else
        let orders1 := updateWhere (fun o => o.id == order_id)
          (fun o =>
            let o1 := { o with status := new_status }
            if new_status == OrderStatus.confirmed then
              { o1 with payment_status := "paid" }
            else o1) db.orders
        .ok { db with orders := orders1 }

/-- Error of the payment webhook (orders.py lines 306-310). -/
inductive WebhookError where
  | orderNotFound
deriving DecidableEq, Repr

/-- POST /orders/\x7border_id\x7d/payment/webhook (orders.py lines
294-333).  The payload's optional `status` field drives the update: on
"success" the order becomes confirmed/paid and two notification tasks are
enqueued; on "failed" only the payment status changes; any other value
changes nothing.  The handler always answers with a processed response
carrying the order id; the returned list names the tasks enqueued. -/
def payment_webhook (db : DB) (order_id : Nat) (payload_status : Option String) :
    Except WebhookError (DB × List String × Nat) :=
  match db.orders.find? (fun o => o.id == order_id) with
  | none => .error .orderNotFound
  | some order =>
    if payload_status == some "success" then
      let orders1 := updateWhere (fun o => o.id == order_id)
        (fun o => { o with status := OrderStatus.confirmed,
                           payment_status := "paid" }) db.orders
      .ok ({ db with orders := orders1 },
           ["send_order_confirmation", "notify_shop_owner"], order.id)
    else if payload_status == some "failed" then
      let orders1 := updateWhere (fun o => o.id == order_id)
        (fun o => { o with payment_status := "failed" }) db.orders
      .ok ({ db with orders := orders1 }, [], order.id)
    else
      .ok (db, [], order.id)

/-- Filter of the scheduled unpaid-order sweep (order_tasks.py lines
29-33): status pending, payment status "pending", created more than 24
hours (86400 seconds) before `now`. -/
def unpaidCutoffMatch (cutoff : Int) (o : Order) : Bool :=
  o.status == OrderStatus.pending && o.payment_status == "pending"
    && decide (o.created_at < cutoff)

/-- Scheduled task cancel_unpaid_orders (order_tasks.py lines 22-48): every
matching order's status is set to cancelled and the count of cancelled
orders is returned.  The task touches no other table; in particular the
products table is left exactly as it was. -/
def cancel_unpaid_orders (db : DB) (now : Int) : DB × Nat :=
  let cutoff := now - 86400
  ({ db with orders := db.orders.map (fun o =>
      if unpaidCutoffMatch cutoff o then { o with status := OrderStatus.cancelled }
      else o) },
   (db.orders.filter (unpaidCutoffMatch cutoff)).length)

/-- Database component of a webhook result, with the pre-call database as
the fallback for the error branch. -/
def webhookDB (db : DB) (x : Except WebhookError (DB × List String × Nat)) : DB :=
  match x with
  | .ok r => r.1
  | .error _ => db

/-- Tasks enqueued by a webhook call (none on the error branch). -/
def webhookTasks (x : Except WebhookError (DB × List String × Nat)) : List String :=
  match x with
  | .ok r => r.2.1
  | .error _ => []

/-- Whether a create_order outcome is the insufficient-stock rejection. -/
def isInsufficientStockErr : Except CreateError Order → Bool
  | .error (.insufficientStock _) => true
  | _ => false

/-- Committed database of a create_order outcome, with the pre-call
database as the fallback for the error branch. -/
def createDBOr (db : DB) (x : Except CreateError CreateResult) : DB :=
  match x with
  | .ok r => r.db
  | .error _ => db

/-- Database of a cancel_order outcome, with the pre-call database as the
fallback for the error branch. -/
def cancelDBOr (db : DB) (x : Except CancelError DB) : DB :=
  match x with
  | .ok d => d
  | .error _ => db

/-- Database of an update_order_status outcome, with the pre-call database
as the fallback for the error branch. -/
def statusDBOr (db : DB) (x : Except StatusUpdateError DB) : DB :=
  match x with
  | .ok d => d
  | .error _ => db

/-- Unit prices of the line items created by a create_order outcome. -/
def itemPricesOf (x : Except CreateError CreateResult) : List ℚ :=
  match x with
  | .ok r => r.items.map (fun it => it.unit_price)
  | .error _ => []

/-! ## Concrete rows used to exercise the definitions -/

/-- A customer of tenant 1. -/
def u0 : User := { id := 1, tenant_id := some 1, role := "customer" }

/-- Tracked product with stock 5. -/
def p0 : Product :=
  { id := 1, name := "tea", base_price := 10, discount_price := none,
    stock_quantity := 5, sales_count := 0, track_inventory := true }

/-- Database with one tracked product and cart rows of two customers. -/
def db0 : DB :=
  { products := [p0], orders := [], order_items := [],
    cart_items := [{ customer_id := 1, product_id := 1, quantity := 2 },
                   { customer_id := 2, product_id := 1, quantity := 1 }] }

/-- Request for 3 units of product 1. -/
def req0 : OrderCreate :=
  { items := [{ product_id := 1, quantity := 3 }], discount_code := none }

/-- Request for 6 units of product 1 (more than p0's stock). -/
def req2 : OrderCreate :=
  { items := [{ product_id := 1, quantity := 6 }], discount_code := none }

/-- The order row create_order db0 u0 req0 produces. -/
def ord0 : Order :=
  { id := 1, tenant_id := 1, customer_id := 1, subtotal := 30,
    discount_amount := 0, shipping_cost := 0, tax_amount := 3, total := 33,
    status := OrderStatus.pending, payment_status := "pending", created_at := 0 }

/-- The line item create_order db0 u0 req0 produces. -/
def itm0 : OrderItem :=
  { order_id := 1, product_id := 1, product_name := "tea", quantity := 3,
    unit_price := 10, total_price := 30 }

/-- Full result of create_order db0 u0 req0 0 1 true. -/
def res0 : CreateResult :=
  { db := { products := [{ p0 with stock_quantity := 2, sales_count := 3 }],
            orders := [ord0],
            order_items := [itm0],
            cart_items := [{ customer_id := 2, product_id := 1, quantity := 1 }] },
    order := ord0,
    items := [itm0],
    task_enqueued := true }

/-- Tracked product priced with a discount price above its base price:
reachable through the product-update schema, which (unlike the creation
schema) has no discount-below-base validator (app/schemas.py, class
ProductUpdate; products.py, update_product). -/
def p8 : Product :=
  { id := 1, name := "hat", base_price := 10, discount_price := some 15,
    stock_quantity := 5, sales_count := 0, track_inventory := true }

/-- Database holding only p8. -/
def db8 : DB := { products := [p8], orders := [], order_items := [], cart_items := [] }

/-- The order row create_order db8 u0 req0 produces. -/
def ord8 : Order :=
  { id := 1, tenant_id := 1, customer_id := 1, subtotal := 45,
    discount_amount := 0, shipping_cost := 0, tax_amount := 9 / 2, total := 99 / 2,
    status := OrderStatus.pending, payment_status := "pending", created_at := 0 }

/-- The line item create_order db8 u0 req0 produces: priced at the
discount price 15 although the base price is 10. -/
def itm8 : OrderItem :=
  { order_id := 1, product_id := 1, product_name := "hat", quantity := 3,
    unit_price := 15, total_price := 45 }

/-- Full result of create_order db8 u0 req0 0 1 true. -/
def res8 : CreateResult :=
  { db := { products := [{ p8 with stock_quantity := 2, sales_count := 3 }],
            orders := [ord8], order_items := [itm8], cart_items := [] },
    order := ord8, items := [itm8], task_enqueued := true }

/-- The pricing rule as the spec words it: use the discount price if
present and lower than the base price, else the base price.  Kept only to
compare against the code's `unitPrice`. -/
def specUnitPrice (p : Product) : ℚ :=
  match p.discount_price with
  | some d => if d < p.base_price then d else p.base_price
  | none => p.base_price

/-- Untracked product (track_inventory false) with stock 7 and sales 1. -/
def p3 : Product :=
  { id := 1, name := "gift", base_price := 10, discount_price := none,
    stock_quantity := 7, sales_count := 1, track_inventory := false }

/-- Database holding only the untracked product p3. -/
def db3 : DB := { products := [p3], orders := [], order_items := [], cart_items := [] }

/-- Database state after creating an order for 3 units of p3. -/
def db4mid : DB := createDBOr db3 (create_order db3 u0 req0 0 1 true)

/-- Tracked product in its post-order state (3 units of stock consumed by
order o5a). -/
def p5 : Product :=
  { id := 1, name := "tea", base_price := 10, discount_price := none,
    stock_quantity := 2, sales_count := 3, track_inventory := true }

/-- Unpaid pending order created at time 0 (older than 24 hours at time
200000). -/
def o5a : Order :=
  { id := 1, tenant_id := 1, customer_id := 1, subtotal := 30,
    discount_amount := 0, shipping_cost := 0, tax_amount := 3, total := 33,
    status := OrderStatus.pending, payment_status := "pending", created_at := 0 }

/-- Unpaid pending order created at time 199000 (newer than 24 hours at
time 200000). -/
def o5b : Order := { o5a with id := 2, created_at := 199000 }

/-- Database for the unpaid-order sweep: one old and one fresh unpaid
order, the old one holding the line item itm0 on product p5. -/
def db5 : DB :=
  { products := [p5], orders := [o5a, o5b], order_items := [itm0], cart_items := [] }

/-- A tenant-owner user of tenant 1. -/
def own9 : User := { id := 9, tenant_id := some 1, role := "tenant_owner" }

/-- A delivered, paid order of tenant 1. -/
def o9 : Order :=
  { id := 1, tenant_id := 1, customer_id := 2, subtotal := 0,
    discount_amount := 0, shipping_cost := 0, tax_amount := 0, total := 0,
    status := OrderStatus.delivered, payment_status := "paid", created_at := 0 }

/-- Database holding only the delivered order o9. -/
def db9 : DB := { products := [], orders := [o9], order_items := [], cart_items := [] }

/-- db9 after the status of o9 was forced back to pending. -/
def db9res : DB := { db9 with orders := [{ o9 with status := OrderStatus.pending }] }

deriving instance DecidableEq for Except

/-! ## Facts about the pricing loop -/

/-- Every priced line records total price = unit price times quantity
(orders.py line 50). -/
theorem priceItems_total_eq (products : List Product) :
    ∀ (items : List OrderItemCreate) (l : List PricedItem),
      priceItems products items = .ok l →
      ∀ it ∈ l, it.total_price = it.unit_price * (it.quantity : ℚ) := by
  intro items
  induction items with
  | nil =>
    intro l h it hit
    simp only [priceItems, Except.ok.injEq] at h
    subst h
    simp at hit
  | cons item rest ih =>
    intro l h it hit
    cases hf : products.find? (fun p => p.id == item.product_id) with
    | none =>
      simp only [priceItems, hf] at h
      exact Except.noConfusion h
    | some product =>
      simp only [priceItems, hf] at h
      by_cases hc : (product.track_inventory
          && decide (product.stock_quantity < (item.quantity : Int))) = true
      · rw [if_pos hc] at h
        exact Except.noConfusion h
      · rw [if_neg hc] at h
        cases hr : priceItems products rest with
        | error e =>
          rw [hr] at h
          exact Except.noConfusion h
        | ok tail =>
          rw [hr] at h
          simp only [Except.map, Except.ok.injEq] at h
          subst h
          rcases List.mem_cons.mp hit with hhead | htail
          · subst hhead; rfl
          · exact ih tail hr it htail

/-- Every priced line's unit price is `unitPrice` of the product its
product_id refers to (orders.py line 49). -/
theorem priceItems_unit (products : List Product) :
    ∀ (items : List OrderItemCreate) (l : List PricedItem),
      priceItems products items = .ok l →
      ∀ it ∈ l, ∀ p,
        products.find? (fun q => q.id == it.product_id) = some p →
        it.unit_price = unitPrice p := by
  intro items
  induction items with
  | nil =>
    intro l h it hit
    simp only [priceItems, Except.ok.injEq] at h
    subst h
    simp at hit
  | cons item rest ih =>
    intro l h it hit p hp
    cases hf : products.find? (fun q => q.id == item.product_id) with
    | none =>
      simp only [priceItems, hf] at h
      exact Except.noConfusion h
    | some product =>
      simp only [priceItems, hf] at h
      by_cases hc : (product.track_inventory
          && decide (product.stock_quantity < (item.quantity : Int))) = true
      · rw [if_pos hc] at h
        exact Except.noConfusion h
      · rw [if_neg hc] at h
        cases hr : priceItems products rest with
        | error e =>
          rw [hr] at h
          exact Except.noConfusion h
        | ok tail =>
          rw [hr] at h
          simp only [Except.map, Except.ok.injEq] at h
          subst h
          rcases List.mem_cons.mp hit with hhead | htail
          · subst hhead
            have hid : product.id = item.product_id := by
              simpa using List.find?_some hf
            dsimp at hp
            rw [hid, hf] at hp
            injection hp with hpp
            subst hpp
            rfl
          · exact ih tail hr it htail p hp

/-- The accumulated subtotal is the sum of quantity times unit price
(orders.py lines 50-51). -/
theorem subtotalOf_eq (l : List PricedItem)
    (h : ∀ it ∈ l, it.total_price = it.unit_price * (it.quantity : ℚ)) :
    subtotalOf l = (l.map (fun it => (it.quantity : ℚ) * it.unit_price)).sum := by
  induction l with
  | nil => rfl
  | cons a t ih =>
    have ha := h a (List.mem_cons_self a t)
    have ht : ∀ it ∈ t, it.total_price = it.unit_price * (it.quantity : ℚ) :=
      fun it hit => h it (List.mem_cons_of_mem a hit)
    simp only [subtotalOf, List.map_cons, List.sum_cons] at *
    rw [ha, mul_comm]
    exact congrArg (fun s => (a.quantity : ℚ) * a.unit_price + s) (ih ht)

/-- C1: for every checkout request create_order accepts, the persisted
order satisfies total = subtotal - discount_amount + shipping_cost +
tax_amount, the subtotal is the sum over the items of quantity times unit
price, every created line item satisfies total_price = quantity times
unit_price, the tax is one tenth of the subtotal, and shipping cost and
discount amount are zero. -/
theorem C1_create_order_totals (db : DB) (u : User) (req : OrderCreate)
    (now : Int) (oid : Nat) (enq : Bool) (r : CreateResult)
    (h : create_order db u req now oid enq = .ok r) :
    r.order.total = r.order.subtotal - r.order.discount_amount
        + r.order.shipping_cost + r.order.tax_amount ∧
    r.order.subtotal = (r.items.map (fun it => (it.quantity : ℚ) * it.unit_price)).sum ∧
    (∀ it ∈ r.items, it.total_price = (it.quantity : ℚ) * it.unit_price) ∧
    r.order.tax_amount = (1 / 10) * r.order.subtotal ∧
    r.order.shipping_cost = 0 ∧
    r.order.discount_amount = 0 := by
  cases htid : u.tenant_id with
  | none =>
    simp only [create_order, htid] at h
    exact absurd h (by simp)
  | some tid =>
    cases hp : priceItems db.products req.items with
    | error e =>
      simp only [create_order, htid, hp] at h
      exact absurd h (by simp)
    | ok priced =>
      simp only [create_order, htid, hp, Except.ok.injEq] at h
      subst h
      have htotal := priceItems_total_eq db.products req.items priced hp
      refine ⟨rfl, ?_, ?_, mul_comm _ _, rfl, rfl⟩
      · show subtotalOf priced = _
        rw [subtotalOf_eq priced htotal, List.map_map]
        rfl
      · intro it hit
        rcases List.mem_map.mp hit with ⟨src, hsrc, rfl⟩
        show src.total_price = (src.quantity : ℚ) * src.unit_price
        rw [htotal src hsrc, mul_comm]

/-- Updating the first row matched by `p` is observed by a later
`find? p` as long as the update keeps the row matching. -/
theorem find?_updateWhere {α : Type} (p : α → Bool) (f : α → α) :
    ∀ (l : List α) (x : α), l.find? p = some x → p (f x) = true →
      (updateWhere p f l).find? p = some (f x) := by
  intro l
  induction l with
  | nil =>
    intro x hx _
    simp [List.find?] at hx
  | cons a t ih =>
    intro x hx hpf
    cases ha : p a with
    | true =>
      rw [List.find?_cons_of_pos t ha] at hx
      injection hx with hax
      subst hax
      simp only [updateWhere, ha, if_true]
      exact List.find?_cons_of_pos t hpf
    | false =>
      rw [List.find?_cons_of_neg t (by simp [ha])] at hx
      have hstep : updateWhere p f (a :: t) = a :: updateWhere p f t := by
        simp [updateWhere, ha]
      rw [hstep, List.find?_cons_of_neg _ (by simp [ha])]
      exact ih x hx hpf

/-- Dropping a customer's rows then filtering for that customer yields
nothing. -/
theorem filter_cleared (uid : Nat) :
    ∀ l : List CartItem,
      (l.filter (fun c => !(c.customer_id == uid))).filter
        (fun c => c.customer_id == uid) = [] := by
  intro l
  induction l with
  | nil => rfl
  | cons a t ih =>
    cases ha : (a.customer_id == uid) with
    | true => simp [List.filter_cons, ha, ih]
    | false => simp [List.filter_cons, ha, ih]

/-- When every requested product exists and some requested item exceeds
the stock of its tracked product, the pricing loop rejects with an
insufficient-stock error (orders.py lines 33-47). -/
theorem priceItems_insufficient (products : List Product) :
    ∀ items : List OrderItemCreate,
      (∀ item ∈ items,
        (products.find? (fun q => q.id == item.product_id)).isSome = true) →
      (∃ item ∈ items, ∃ p,
        products.find? (fun q => q.id == item.product_id) = some p ∧
        p.track_inventory = true ∧ p.stock_quantity < (item.quantity : Int)) →
      ∃ msg, priceItems products items = .error (.insufficientStock msg) := by
  intro items
  induction items with
  | nil =>
    intro _ hlow
    rcases hlow with ⟨item, hmem, _⟩
    exact absurd hmem (List.not_mem_nil item)
  | cons item rest ih =>
    intro hfound hlow
    rcases Option.isSome_iff_exists.mp
      (hfound item (List.mem_cons_self item rest)) with ⟨product, hf⟩
    by_cases hc : (product.track_inventory
        && decide (product.stock_quantity < (item.quantity : Int))) = true
    · refine ⟨product.name, ?_⟩
      simp only [priceItems, hf]
      rw [if_pos hc]
    · have hlow' : ∃ it2 ∈ rest, ∃ p,
          products.find? (fun q => q.id == it2.product_id) = some p ∧
          p.track_inventory = true ∧ p.stock_quantity < (it2.quantity : Int) := by
        rcases hlow with ⟨it2, hmem2, p2, hf2, htrack2, hstock2⟩
        rcases List.mem_cons.mp hmem2 with heq | hm
        · subst heq
          rw [hf] at hf2
          injection hf2 with hp2
          subst hp2
          exact absurd (by simp [htrack2, hstock2]) hc
        · exact ⟨it2, hm, p2, hf2, htrack2, hstock2⟩
      have hrest : ∀ it2 ∈ rest,
          (products.find? (fun q => q.id == it2.product_id)).isSome = true :=
        fun it2 hit => hfound it2 (List.mem_cons_of_mem item hit)
      rcases ih hrest hlow' with ⟨msg, hmsg⟩
      refine ⟨msg, ?_⟩
      simp only [priceItems, hf]
      rw [if_neg hc, hmsg]
      rfl

/-- Witness for C1 at a concrete request. -/
theorem C1_create_order_totals_witness :
    create_order db0 u0 req0 0 1 true = .ok res0 ∧
    res0.order.total = res0.order.subtotal - res0.order.discount_amount
        + res0.order.shipping_cost + res0.order.tax_amount ∧
    res0.order.subtotal = (res0.items.map (fun it => (it.quantity : ℚ) * it.unit_price)).sum ∧
    itm0.total_price = (itm0.quantity : ℚ) * itm0.unit_price ∧
    res0.order.tax_amount = (1 / 10) * res0.order.subtotal ∧
    res0.order.shipping_cost = 0 ∧
    res0.order.discount_amount = 0 := by
  have h : create_order db0 u0 req0 0 1 true = .ok res0 := by
    norm_num [create_order, priceItems, unitPrice, subtotalOf, applyOrderMutation,
      updateWhere, Except.map, List.foldl, db0, u0, req0, p0, res0, ord0, itm0]
  have c := C1_create_order_totals db0 u0 req0 0 1 true res0 h
  exact ⟨h, c.1, c.2.1, c.2.2.1 itm0 (by decide), c.2.2.2.1, c.2.2.2.2.1, c.2.2.2.2.2⟩

/-- C2: when every requested product exists and some requested item
references a tracked product whose stock is below the requested quantity,
create_order fails with the insufficient-stock error and the database is
left exactly as it was: no stock, sales count, order or order-item row
changes, because every stock check (orders.py lines 33-61) runs before the
first mutation (lines 96-116). -/
theorem C2_insufficient_stock_rejects_without_mutation
    (db : DB) (u : User) (req : OrderCreate) (now : Int) (oid : Nat) (enq : Bool)
    (ht : u.tenant_id.isSome = true)
    (hfound : ∀ item ∈ req.items,
      (db.products.find? (fun q => q.id == item.product_id)).isSome = true)
    (hlow : ∃ item ∈ req.items, ∃ p,
      db.products.find? (fun q => q.id == item.product_id) = some p ∧
      p.track_inventory = true ∧ p.stock_quantity < (item.quantity : Int)) :
    (runCreateOrder db u req now oid enq).1 = db ∧
    isInsufficientStockErr (runCreateOrder db u req now oid enq).2 = true := by
  rcases Option.isSome_iff_exists.mp ht with ⟨tid, htid⟩
  rcases priceItems_insufficient db.products req.items hfound hlow with ⟨msg, hmsg⟩
  refine ⟨?_, ?_⟩ <;> (simp only [runCreateOrder, create_order, htid, hmsg]; try trivial)

/-- Witness for C2: requesting 6 units of a tracked product with stock 5
is rejected and the database keeps every table unchanged. -/
theorem C2_insufficient_stock_rejects_without_mutation_witness :
    (runCreateOrder db0 u0 req2 0 1 true).1 = db0 ∧
    isInsufficientStockErr (runCreateOrder db0 u0 req2 0 1 true).2 = true :=
  C2_insufficient_stock_rejects_without_mutation db0 u0 req2 0 1 true
    (by decide) (by decide)
    ⟨{ product_id := 1, quantity := 6 }, by decide, p0, by decide, by decide, by decide⟩

/-- C3 (divergence exhibit): ordering 3 units of the untracked product p3
(stock 7, sales 1) succeeds, leaves the stock untouched, but increments the
sales count to 4 — the increment on orders.py line 111 sits outside the
track_inventory guard, so it also fires for untracked products. -/
theorem C3_untracked_sales_count_still_incremented :
    (create_order db3 u0 req0 0 1 true).isOk = true ∧
    (createDBOr db3 (create_order db3 u0 req0 0 1 true)).products.map
      (fun p => (p.stock_quantity, p.sales_count)) = [(7, 4)] ∧
    p3.track_inventory = false ∧
    p3.stock_quantity = 7 ∧ p3.sales_count = 1 ∧
    ¬((4 : Int) = 1) := by decide

/-- C4 (divergence exhibit): creating and then cancelling an order for 3
units of the untracked product p3 sets the order to cancelled and leaves
the stock at its pre-order value, but the sales count stays at 4 instead of
returning to 1: the cancellation restore loop (orders.py lines 213-217)
reverses the counters only for tracked products, while creation incremented
the sales count unconditionally. -/
theorem C4_create_cancel_not_identity_on_sales_count :
    (create_order db3 u0 req0 0 1 true).isOk = true ∧
    (cancel_order db4mid u0 1).isOk = true ∧
    (cancelDBOr db4mid (cancel_order db4mid u0 1)).orders.map (fun o => o.status)
      = [OrderStatus.cancelled] ∧
    (cancelDBOr db4mid (cancel_order db4mid u0 1)).products.map
      (fun p => (p.stock_quantity, p.sales_count)) = [(7, 4)] ∧
    p3.stock_quantity = 7 ∧ p3.sales_count = 1 ∧
    ¬((4 : Int) = 1) := by decide

/-- C5 (divergence exhibit): the unpaid-order sweep at time 200000 cancels
exactly the pending/pending order older than 24 hours (o5a, created at 0)
and leaves the newer o5b pending, but it does not restore the inventory of
o5a's line item: the products table is returned untouched, so p5 keeps
stock 2 and sales 3 instead of the pre-order 5 and 0 (order_tasks.py lines
36-42 only set the status). -/
theorem C5_sweep_cancels_without_restoring_inventory :
    (cancel_unpaid_orders db5 200000).1.orders.map (fun o => o.status)
      = [OrderStatus.cancelled, OrderStatus.pending] ∧
    (cancel_unpaid_orders db5 200000).2 = 1 ∧
    (cancel_unpaid_orders db5 200000).1.products = db5.products ∧
    (cancel_unpaid_orders db5 200000).1.order_items = db5.order_items ∧
    p5.stock_quantity = 2 ∧ p5.sales_count = 3 ∧ itm0.quantity = 3 ∧
    ¬((2 : Int) = 5) := by decide

/-- C6: whenever create_order would succeed with a working task broker, it
succeeds identically with a failing one: the committed database, the
returned order and its items are the same, and only the task flag differs —
the try/except on orders.py lines 120-125 confines an enqueue exception to
a log line after the commit. -/
theorem C6_enqueue_failure_does_not_affect_order
    (db : DB) (u : User) (req : OrderCreate) (now : Int) (oid : Nat)
    (r : CreateResult)
    (h : create_order db u req now oid true = .ok r) :
    create_order db u req now oid false = .ok { r with task_enqueued := false } := by
  cases htid : u.tenant_id with
  | none =>
    simp only [create_order, htid] at h
    exact Except.noConfusion h
  | some tid =>
    cases hp : priceItems db.products req.items with
    | error e =>
      simp only [create_order, htid, hp] at h
      exact Except.noConfusion h
    | ok priced =>
      simp only [create_order, htid, hp, Except.ok.injEq] at h
      subst h
      simp only [create_order, htid, hp]

/-- Witness for C6: the concrete order of C1 is created identically when
the enqueue fails. -/
theorem C6_enqueue_failure_does_not_affect_order_witness :
    create_order db0 u0 req0 0 1 true = .ok res0 ∧
    create_order db0 u0 req0 0 1 false = .ok { res0 with task_enqueued := false } := by
  have h : create_order db0 u0 req0 0 1 true = .ok res0 := by
    norm_num [create_order, priceItems, unitPrice, subtotalOf, applyOrderMutation,
      updateWhere, Except.map, List.foldl, db0, u0, req0, p0, res0, ord0, itm0]
  exact ⟨h, C6_enqueue_failure_does_not_affect_order db0 u0 req0 0 1 res0 h⟩

/-- C7: after a successful create_order the customer's cart is empty and
the surviving cart rows are exactly the other customers' rows (orders.py
line 114 deletes by customer_id inside the committed transaction). -/
theorem C7_cart_cleared_for_customer_only
    (db : DB) (u : User) (req : OrderCreate) (now : Int) (oid : Nat) (enq : Bool)
    (r : CreateResult)
    (h : create_order db u req now oid enq = .ok r) :
    r.db.cart_items = db.cart_items.filter (fun c => !(c.customer_id == u.id)) ∧
    r.db.cart_items.filter (fun c => c.customer_id == u.id) = [] := by
  cases htid : u.tenant_id with
  | none =>
    simp only [create_order, htid] at h
    exact Except.noConfusion h
  | some tid =>
    cases hp : priceItems db.products req.items with
    | error e =>
      simp only [create_order, htid, hp] at h
      exact Except.noConfusion h
    | ok priced =>
      simp only [create_order, htid, hp, Except.ok.injEq] at h
      subst h
      exact ⟨rfl, filter_cleared u.id db.cart_items⟩

/-- Witness for C7: db0 carries cart rows of customers 1 and 2; after
customer 1 orders, only customer 2's row survives. -/
theorem C7_cart_cleared_for_customer_only_witness :
    create_order db0 u0 req0 0 1 true = .ok res0 ∧
    res0.db.cart_items = db0.cart_items.filter (fun c => !(c.customer_id == u0.id)) ∧
    res0.db.cart_items.filter (fun c => c.customer_id == u0.id) = [] := by
  have h : create_order db0 u0 req0 0 1 true = .ok res0 := by
    norm_num [create_order, priceItems, unitPrice, subtotalOf, applyOrderMutation,
      updateWhere, Except.map, List.foldl, db0, u0, req0, p0, res0, ord0, itm0]
  exact ⟨h, C7_cart_cleared_for_customer_only db0 u0 req0 0 1 true res0 h⟩

/-- C8 counterexample: the product p8 has base price 10 and discount price
15; the claim's pricing rule (specUnitPrice, the spec's words) gives 10,
but order creation prices the item at 15 — the code takes any set nonzero
discount price without comparing it with the base price. -/
theorem C8_counterexample_discount_used_without_comparison :
    (create_order db8 u0 req0 0 1 true).isOk = true ∧
    itemPricesOf (create_order db8 u0 req0 0 1 true) = [15] ∧
    specUnitPrice p8 = 10 ∧
    ¬((15 : ℚ) = 10) := by decide

/-- C8 amended: every created line item is priced by `unitPrice` applied
to its product: the discount price whenever it is set and nonzero, else
the base price, with no lower-than-base comparison at order time. -/
theorem C8_amended_item_priced_by_truthy_discount
    (db : DB) (u : User) (req : OrderCreate) (now : Int) (oid : Nat) (enq : Bool)
    (r : CreateResult)
    (h : create_order db u req now oid enq = .ok r) :
    ∀ it ∈ r.items, ∀ p,
      db.products.find? (fun q => q.id == it.product_id) = some p →
      it.unit_price = unitPrice p := by
  cases htid : u.tenant_id with
  | none =>
    simp only [create_order, htid] at h
    exact Except.noConfusion h
  | some tid =>
    cases hp : priceItems db.products req.items with
    | error e =>
      simp only [create_order, htid, hp] at h
      exact Except.noConfusion h
    | ok priced =>
      simp only [create_order, htid, hp, Except.ok.injEq] at h
      subst h
      intro it hit p hfp
      rcases List.mem_map.mp hit with ⟨src, hsrc, rfl⟩
      exact priceItems_unit db.products req.items priced hp src hsrc p hfp

/-- Witness for C8 amended: the concrete item of db8 is priced at
unitPrice p8 = 15. -/
theorem C8_amended_item_priced_by_truthy_discount_witness :
    create_order db8 u0 req0 0 1 true = .ok res8 ∧
    itm8.unit_price = unitPrice p8 := by
  have h : create_order db8 u0 req0 0 1 true = .ok res8 := by
    norm_num [create_order, priceItems, unitPrice, subtotalOf, applyOrderMutation,
      updateWhere, Except.map, List.foldl, db8, u0, req0, p8, res8, ord8, itm8]
  exact ⟨h, C8_amended_item_priced_by_truthy_discount db8 u0 req0 0 1 true res8 h
    itm8 (by decide) p8 (by decide)⟩

/-- C9 counterexample: the status-update endpoint moves the delivered
order o9 back to pending — a backwards transition reachable by a tenant
owner through the public API, so the monotonicity claim fails. -/
theorem C9_counterexample_delivered_back_to_pending :
    (update_order_status db9 own9 1 OrderStatus.pending).isOk = true ∧
    (statusDBOr db9 (update_order_status db9 own9 1 OrderStatus.pending)).orders.map
      (fun o => o.status) = [OrderStatus.pending] ∧
    o9.status = OrderStatus.delivered ∧
    ¬(OrderStatus.delivered = OrderStatus.pending) := by decide

/-- C9 amended: update_order_status validates only the caller's role and
tenant, never the transition: whatever the order's current status, the
requested status is applied verbatim (with payment status forced to paid
when the new status is confirmed). -/
theorem C9_amended_any_status_applied
    (db : DB) (u : User) (oid : Nat) (s : OrderStatus) (db1 : DB) (o : Order)
    (h : update_order_status db u oid s = .ok db1)
    (ho : db.orders.find? (fun x => x.id == oid) = some o) :
    db1.orders.find? (fun x => x.id == oid) =
      some (if s == OrderStatus.confirmed
            then { o with status := s, payment_status := "paid" }
            else { o with status := s }) := by
  by_cases hrole : u.role = "tenant_owner"
  · simp only [update_order_status, ho] at h
    rw [if_neg (not_not_intro hrole)] at h
    by_cases hten : some o.tenant_id ≠ u.tenant_id
    · rw [if_pos hten] at h
      exact Except.noConfusion h
    · rw [if_neg hten] at h
      simp only [Except.ok.injEq] at h
      subst h
      have hpo := List.find?_some ho
      have hres := find?_updateWhere (fun x => x.id == oid)
        (fun x =>
          let o1 := { x with status := s }
          if s == OrderStatus.confirmed then { o1 with payment_status := "paid" }
          else o1)
        db.orders o ho
        (by cases hs : s == OrderStatus.confirmed <;> simp [hs, hpo])
      rw [hres]
  · simp only [update_order_status] at h
    rw [if_pos hrole] at h
    exact Except.noConfusion h

/-- Witness for C9 amended at the delivered order o9 and requested status
pending. -/
theorem C9_amended_any_status_applied_witness :
    update_order_status db9 own9 1 OrderStatus.pending = .ok db9res ∧
    db9res.orders.find? (fun x => x.id == 1) =
      some (if OrderStatus.pending == OrderStatus.confirmed
            then { o9 with status := OrderStatus.pending, payment_status := "paid" }
            else { o9 with status := OrderStatus.pending }) := by
  have h : update_order_status db9 own9 1 OrderStatus.pending = .ok db9res := by decide
  exact ⟨h, C9_amended_any_status_applied db9 own9 1 OrderStatus.pending db9res o9
    h (by decide)⟩

/-- C10: for an existing order, a webhook payload whose status field is
neither "success" nor "failed" (a missing field included) leaves the
database untouched, enqueues nothing, and still answers processed with the
order id; a "success" payload confirms the order and marks it paid while
enqueuing the two notification tasks; a "failed" payload only marks the
payment failed.  All other tables are untouched in every case. -/
theorem C10_webhook_cases (db : DB) (oid : Nat) (ws : Option String) (o : Order)
    (h : db.orders.find? (fun x => x.id == oid) = some o) :
    (ws ≠ some "success" → ws ≠ some "failed" →
      payment_webhook db oid ws = .ok (db, [], o.id)) ∧
    (ws = some "success" →
      webhookTasks (payment_webhook db oid ws)
          = ["send_order_confirmation", "notify_shop_owner"] ∧
      (webhookDB db (payment_webhook db oid ws)).orders.find? (fun x => x.id == oid)
          = some { o with status := OrderStatus.confirmed, payment_status := "paid" } ∧
      (webhookDB db (payment_webhook db oid ws)).products = db.products ∧
      (webhookDB db (payment_webhook db oid ws)).order_items = db.order_items ∧
      (webhookDB db (payment_webhook db oid ws)).cart_items = db.cart_items) ∧
    (ws = some "failed" →
      webhookTasks (payment_webhook db oid ws) = [] ∧
      (webhookDB db (payment_webhook db oid ws)).orders.find? (fun x => x.id == oid)
          = some { o with payment_status := "failed" } ∧
      (webhookDB db (payment_webhook db oid ws)).products = db.products ∧
      (webhookDB db (payment_webhook db oid ws)).order_items = db.order_items ∧
      (webhookDB db (payment_webhook db oid ws)).cart_items = db.cart_items) := by
  have hpo := List.find?_some h
  refine ⟨?_, ?_, ?_⟩
  · intro h1 h2
    have hb1 : (ws == some "success") = false := beq_eq_false_iff_ne.mpr h1
    have hb2 : (ws == some "failed") = false := beq_eq_false_iff_ne.mpr h2
    simp only [payment_webhook, h, hb1, hb2, Bool.false_eq_true, if_false]
  · intro h1
    subst h1
    have hres := find?_updateWhere (fun x => x.id == oid)
      (fun x => { x with status := OrderStatus.confirmed, payment_status := "paid" })
      db.orders o h (by simpa using hpo)
    simp only [payment_webhook, h, webhookTasks, webhookDB]
    exact ⟨rfl, hres, rfl, rfl, rfl⟩
  · intro h1
    subst h1
    have hres := find?_updateWhere (fun x => x.id == oid)
      (fun x => { x with payment_status := "failed" })
      db.orders o h (by simpa using hpo)
    simp only [payment_webhook, h, webhookTasks, webhookDB]
    exact ⟨rfl, hres, rfl, rfl, rfl⟩

/-- Witness for C10: a payload with a missing status field against the
delivered order o9 answers processed and changes nothing. -/
theorem C10_webhook_cases_witness :
    db9.orders.find? (fun x => x.id == 1) = some o9 ∧
    payment_webhook db9 1 none = .ok (db9, [], 1) :=
  ⟨by decide, (C10_webhook_cases db9 1 none o9 (by decide)).1
    (by decide) (by decide)⟩

end Shopify
